import Mathlib

/-
Shallow embedding of src/python/Timeseries.py (MDAnalysis timeseries module).

Conventions of the embedding:
- Python exceptions are modelled by the inductive PyErr; fallible code returns
  Except PyErr.
- The error taxonomy of the specification is mapped onto the generic Python
  exceptions raised by the source as follows:
    invalidAtomSelection : the "Invalid atoms passed to ... timeseries" Exception
    arityMismatch        : the "... timeseries requires a N atom selection" Exception
    badCode              : the "Bad code" Exception
    wrongRequestType     : the "Can only add Timeseries objects ..." Exception
    reshapeError         : a numpy ValueError from an in-place shape assignment
    typeError            : a Python TypeError (e.g. len() of an object with no length)
    attributeError       : a Python AttributeError (missing attribute lookup)
    indexError           : a Python IndexError
    engineError          : an arbitrary failure raised by the external engine
- numpy float64 values are represented by Rat: the core never performs
  arithmetic on buffer elements, it only moves them around, so any numeric
  carrier with decidable equality is faithful.
- A 2-D numpy array of shape (rows, frames) is Arr: a list of rows together
  with its column count (the width survives slicing even when a slice is
  empty, exactly as a numpy view keeps its second dimension).
- The AtomGroup module is not part of src/; per the structure boundary of the
  specification, an atom entity is modelled as AtomData (an integer identifier
  plus a mass) and an atom-group resolves to an ordered list of such entities.
-/

inductive PyErr where
  | invalidAtomSelection
  | arityMismatch
  | badCode
  | wrongRequestType
  | reshapeError
  | typeError
  | attributeError
  | indexError
  | engineError
deriving DecidableEq, Repr

deriving instance DecidableEq for Except

/-- An atom entity at the structure boundary: an engine-understood integer
identifier (`Atom.number` in the source) and a mass (used by CenterOfMass). -/
structure AtomData where
  number : Int
  mass : Rat
deriving DecidableEq, Repr

/-- The possible shapes of the `atoms` argument passed to a request
constructor.  `group`, `list` and `single` are the three shapes accepted by
`Timeseries.__init__`; `otherSized` stands for any other Python value that has
a length (e.g. a tuple, a string, a dict), `otherNoLen` for any value with no
`__len__` (e.g. an int, None), on which `len()` raises TypeError. -/
inductive AtomsArg where
  | group (l : List AtomData)
  | list (l : List AtomData)
  | single (a : AtomData)
  | otherSized (n : Nat)
  | otherNoLen
deriving DecidableEq, Repr

/-- Python `len(atoms)`: the length of a group or list (an AtomGroup resolves
to its atom list), the declared length of any other sized value, and a
TypeError (`none`) on values with no length.  A single Atom entity is modelled
as having no `__len__`. -/
def AtomsArg.pyLen : AtomsArg → Option Nat
  | .group l => some l.length
  | .list l => some l.length
  | .single _ => none
  | .otherSized n => some n
  | .otherNoLen => none

/-- The concrete class of a request, used to resolve the virtual dispatch of
`getAtomCounts` (overridden by `Atom`) and `getAuxData` (overridden by
`CenterOfGeometry` and `CenterOfMass`). -/
inductive TsKind where
  | base
  | atom
  | bond
  | angle
  | dihedral
  | distance
  | cog
  | com
deriving DecidableEq, Repr

/-- A 2-D numpy array of shape `(rows.length, width)`: the flat engine buffer
and every row slice of it.  `width` is the frame count. -/
structure Arr where
  width : Nat
  rows : List (List Rat)
deriving DecidableEq, Repr

/-- A numpy view bound to a request by `compute`: the underlying row slice
(sharing the buffer) plus the numpy shape after the optional in-place
reshape. -/
structure NDView where
  data : Arr
  shape : List Nat
deriving DecidableEq, Repr

/-- The state of one `Timeseries` request object: the fields set by
`Timeseries.__init__` plus the `__data__` binding attached by a successful
`TimeseriesCollection.compute` (absent before the first compute). -/
structure Timeseries where
  kind : TsKind
  code : String
  atoms : List AtomData
  numatoms : Nat
  dsize : Nat
  data : Option NDView := none
deriving DecidableEq, Repr

/-- `Timeseries.__init__(self, code, atoms, dsize)`: normalise the atoms
argument (an AtomGroup resolves to its atom list, a list is taken as is, a
single Atom becomes a one-element list, anything else raises the invalid
selection error), then record code, numatoms and dsize. -/
def Timeseries.init (kind : TsKind) (code : String) (atoms : AtomsArg) (dsize : Nat) :
    Except PyErr Timeseries :=
  match atoms with
  | AtomsArg.group l => Except.ok { kind := kind, code := code, atoms := l, numatoms := l.length, dsize := dsize }
  | AtomsArg.list l => Except.ok { kind := kind, code := code, atoms := l, numatoms := l.length, dsize := dsize }
  | AtomsArg.single a => Except.ok { kind := kind, code := code, atoms := [a], numatoms := 1, dsize := dsize }
  | AtomsArg.otherSized _ => Except.error PyErr.invalidAtomSelection
  | AtomsArg.otherNoLen => Except.error PyErr.invalidAtomSelection

/-- Python string repetition `s * n`. -/
def strRep (s : String) : Nat → String
  | 0 => ""
  | n + 1 => strRep s n ++ s

/-- `Timeseries.getAtomList`: the engine identifiers of the request atoms. -/
def Timeseries.getAtomList (t : Timeseries) : List Int :=
  t.atoms.map (fun a => a.number)

/-- `Timeseries.getFormatCode`. -/
def Timeseries.getFormatCode (t : Timeseries) : String := t.code

/-- `Timeseries.getDataSize`. -/
def Timeseries.getDataSize (t : Timeseries) : Nat := t.dsize

/-- `Timeseries.getNumAtoms`. -/
def Timeseries.getNumAtoms (t : Timeseries) : Nat := t.numatoms

/-- `Timeseries.getAtomCounts`, with the `Atom` override `[1]*numatoms`;
every other class uses the base `[numatoms]`. -/
def Timeseries.getAtomCounts (t : Timeseries) : List Nat :=
  match t.kind with
  | TsKind.atom => List.replicate t.numatoms 1
  | _ => [t.numatoms]

/-- `Timeseries.getAuxData`, with the `CenterOfGeometry` override
`[1.]*numatoms` and the `CenterOfMass` override `[a.mass for a in atoms]`;
every other class uses the base `[0.]*numatoms`. -/
def Timeseries.getAuxData (t : Timeseries) : List Rat :=
  match t.kind with
  | TsKind.cog => List.replicate t.numatoms 1
  | TsKind.com => t.atoms.map (fun a => a.mass)
  | _ => List.replicate t.numatoms 0

/-- `Atom.__init__(self, code, atoms)`: the code must be one of x, y, z, v
(else "Bad code"); size is 3 for v else 1; numatoms is determined by the same
isinstance chain as the base class (raising the invalid selection error
otherwise); the base constructor then receives `code*numatoms` and
`size*numatoms`. -/
def Atom.make (code : String) (atoms : AtomsArg) : Except PyErr Timeseries :=
  if code = "x" ∨ code = "y" ∨ code = "z" ∨ code = "v" then
    let size : Nat := if code = "v" then 3 else 1
    match atoms with
    | AtomsArg.group l => Timeseries.init TsKind.atom (strRep code l.length) atoms (size * l.length)
    | AtomsArg.list l => Timeseries.init TsKind.atom (strRep code l.length) atoms (size * l.length)
    | AtomsArg.single _ => Timeseries.init TsKind.atom (strRep code 1) atoms (size * 1)
    | AtomsArg.otherSized _ => Except.error PyErr.invalidAtomSelection
    | AtomsArg.otherNoLen => Except.error PyErr.invalidAtomSelection
  else Except.error PyErr.badCode

/-- `Bond.__init__(self, atoms)`: `len(atoms)` must be 2 (checked first, and
raising TypeError on a value with no length), then the base constructor runs
with code r and dsize 1. -/
def Bond.make (atoms : AtomsArg) : Except PyErr Timeseries :=
  match AtomsArg.pyLen atoms with
  | none => Except.error PyErr.typeError
  | some n =>
    if n = 2 then Timeseries.init TsKind.bond "r" atoms 1
    else Except.error PyErr.arityMismatch

/-- `Angle.__init__(self, atoms)`: `len(atoms)` must be 3, then the base
constructor runs with code a and dsize 1. -/
def Angle.make (atoms : AtomsArg) : Except PyErr Timeseries :=
  match AtomsArg.pyLen atoms with
  | none => Except.error PyErr.typeError
  | some n =>
    if n = 3 then Timeseries.init TsKind.angle "a" atoms 1
    else Except.error PyErr.arityMismatch

/-- `Dihedral.__init__(self, atoms)`: `len(atoms)` must be 4, then the base
constructor runs with code h and dsize 1. -/
def Dihedral.make (atoms : AtomsArg) : Except PyErr Timeseries :=
  match AtomsArg.pyLen atoms with
  | none => Except.error PyErr.typeError
  | some n =>
    if n = 4 then Timeseries.init TsKind.dihedral "h" atoms 1
    else Except.error PyErr.arityMismatch

/-- `Distance.__init__(self, code, atoms)`: code must be d or r (else
"Bad code"); size is 3 for d else 1; `len(atoms)` must be 2; then the base
constructor runs. -/
def Distance.make (code : String) (atoms : AtomsArg) : Except PyErr Timeseries :=
  if code = "d" ∨ code = "r" then
    let size : Nat := if code = "d" then 3 else 1
    match AtomsArg.pyLen atoms with
    | none => Except.error PyErr.typeError
    | some n =>
      if n = 2 then Timeseries.init TsKind.distance code atoms size
      else Except.error PyErr.arityMismatch
  else Except.error PyErr.badCode

/-- `CenterOfGeometry.__init__(self, atoms)`: the base constructor with code m
and dsize 3. -/
def CenterOfGeometry.make (atoms : AtomsArg) : Except PyErr Timeseries :=
  Timeseries.init TsKind.cog "m" atoms 3

/-- `CenterOfMass.__init__(self, atoms)`: the base constructor with code m and
dsize 3. -/
def CenterOfMass.make (atoms : AtomsArg) : Except PyErr Timeseries :=
  Timeseries.init TsKind.com "m" atoms 3

/-- The state of a `TimeseriesCollection`: the registered request list, plus
the dynamic attributes the source sets lazily — `self.data` (the flat engine
buffer stored by `compute`) and `self._atomlist` (the cache written by
`_getAtomList`); both are absent on a fresh collection. -/
structure TimeseriesCollection where
  timeseries : List Timeseries := []
  data : Option Arr := none
  atomlistCache : Option (List Int) := none
deriving DecidableEq, Repr

/-- `len(collection)`. -/
def TimeseriesCollection.size (c : TimeseriesCollection) : Nat :=
  c.timeseries.length

/-- `TimeseriesCollection.addTimeseries` (the argument is a `Timeseries` by
type; the isinstance guard raising the wrong-request error is unreachable in
the typed embedding). -/
def TimeseriesCollection.addTimeseries (c : TimeseriesCollection) (ts : Timeseries) :
    TimeseriesCollection :=
  { c with timeseries := c.timeseries ++ [ts] }

/-- `TimeseriesCollection.clear`: the body is exactly `self.timeseries = []`;
no other attribute is touched. -/
def TimeseriesCollection.clear (c : TimeseriesCollection) : TimeseriesCollection :=
  { c with timeseries := [] }

/-- `TimeseriesCollection._getAtomList`: concatenate the per-request atom
identifier lists in registration order, storing the result in the
`_atomlist` attribute.  Returns the list together with the updated
collection state. -/
def TimeseriesCollection.getAtomList (c : TimeseriesCollection) :
    List Int × TimeseriesCollection :=
  let l := (c.timeseries.map Timeseries.getAtomList).flatten
  (l, { c with atomlistCache := some l })

/-- `TimeseriesCollection._getFormat`: the concatenated format codes. -/
def TimeseriesCollection.getFormat (c : TimeseriesCollection) : String :=
  String.join (c.timeseries.map Timeseries.getFormatCode)

/-- `TimeseriesCollection._getDataSize`: the summed data sizes. -/
def TimeseriesCollection.getDataSize (c : TimeseriesCollection) : Nat :=
  (c.timeseries.map Timeseries.getDataSize).sum

/-- `TimeseriesCollection._getAtomCounts`: the concatenated atom counts. -/
def TimeseriesCollection.getAtomCounts (c : TimeseriesCollection) : List Nat :=
  (c.timeseries.map Timeseries.getAtomCounts).flatten

/-- `TimeseriesCollection._getAuxData`: the concatenated auxiliary weights. -/
def TimeseriesCollection.getAuxData (c : TimeseriesCollection) : List Rat :=
  (c.timeseries.map Timeseries.getAuxData).flatten

/-- `TimeseriesCollection._getBounds` exactly as written in the source: when
the `_atomlist` attribute is absent the code calls `self.getAtomList()`, but
the class defines only `_getAtomList`, so the attribute lookup raises
AttributeError; when the attribute is present the bounds are the min and max
of the cached list, or `(0, 0)` when the cached list is empty. -/
def TimeseriesCollection.getBounds (c : TimeseriesCollection) :
    Except PyErr (Int × Int) :=
  match c.atomlistCache with
  | none => Except.error PyErr.attributeError
  | some al =>
    match al with
    | [] => Except.ok (0, 0)
    | a :: rest => Except.ok (rest.foldl min a, rest.foldl max a)

/-- Modelled from the spec: the bounds computation the specification
describes — `(min, max)` over the combined atom list, `(0, 0)` when that list
is empty — i.e. the source `_getBounds` with the lazy population call spelled
`self._getAtomList()` as evidently intended. -/
def TimeseriesCollection.getBoundsSpec (c : TimeseriesCollection) :
    Except PyErr (Int × Int) :=
  let al :=
    match c.atomlistCache with
    | none => (TimeseriesCollection.getAtomList c).1
    | some al => al
  match al with
  | [] => Except.ok (0, 0)
  | a :: rest => Except.ok (rest.foldl min a, rest.foldl max a)

/-- The combined query the engine consumes in `trj.correl(self, start, stop,
skip)`, per the engine boundary of the specification: the concatenated atom
list, format string, total data size, atom counts and auxiliary weights of
the collection, plus the frame-range arguments. -/
structure CorrelQuery where
  atomList : List Int
  format : String
  dataSize : Nat
  atomCounts : List Nat
  auxData : List Rat
  frameStart : Int
  frameStop : Int
  frameSkip : Int
deriving DecidableEq, Repr

/-- The query derived from the collection state for one engine call. -/
def TimeseriesCollection.getQuery (c : TimeseriesCollection) (start stop skip : Int) :
    CorrelQuery :=
  { atomList := (TimeseriesCollection.getAtomList c).1
  , format := TimeseriesCollection.getFormat c
  , dataSize := TimeseriesCollection.getDataSize c
  , atomCounts := TimeseriesCollection.getAtomCounts c
  , auxData := TimeseriesCollection.getAuxData c
  , frameStart := start
  , frameStop := stop
  , frameSkip := skip }

/-- Python slice `a[start : start + finish]` on the row axis: a view keeping
the width of the sliced array. -/
def sliceArr (a : Arr) (start finish : Nat) : Arr :=
  { width := a.width, rows := (a.rows.drop start).take finish }

/-- One iteration of the remap loop of `compute`: slice
`self.data[start : start + finish]` where `finish = getDataSize()`, and when
`datasize = len(getFormatCode())` is not 1 perform the in-place numpy reshape
`subarray.shape = (datasize, subarray.shape[0] / datasize, -1)` (Python 2
floor division; numpy resolves -1 as remaining elements over the product of
the known dimensions, raising ValueError when that product is zero or does
not divide the element count). -/
def bindStep (buf : Arr) (start : Nat) (t : Timeseries) : Except PyErr NDView :=
  let finish := t.dsize
  let datasize := t.code.length
  let sub := sliceArr buf start finish
  if datasize ≠ 1 then
    let q := sub.rows.length / datasize
    let total := sub.rows.length * sub.width
    if datasize * q ≠ 0 ∧ (datasize * q) ∣ total then
      Except.ok { data := sub, shape := [datasize, q, total / (datasize * q)] }
    else Except.error PyErr.reshapeError
  else Except.ok { data := sub, shape := [sub.rows.length, sub.width] }

/-- The remap loop of `compute` over the registered requests, threading the
running row offset.  On an exception the loop stops: requests already
processed keep their new bindings, the failing request and the rest keep
their old state (faithful to the in-place Python loop). -/
def remapLoop (buf : Arr) : Nat → List Timeseries → Except PyErr Unit × List Timeseries
  | _, [] => (Except.ok (), [])
  | start, t :: rest =>
    match bindStep buf start t with
    | Except.error e => (Except.error e, t :: rest)
    | Except.ok v =>
      let r := remapLoop buf (start + t.dsize) rest
      (r.1, { t with data := some v } :: r.2)

/-- `TimeseriesCollection.compute(self, trj, start, stop, skip)`: one engine
call `self.data = trj.correl(self, start, stop, skip)` — an engine failure
propagates before any state is assigned — followed by the remap loop binding
a view of the buffer to each request.  The engine is a function of the
combined query (the determinism assumed of it by the specification).  The
first component is the outcome (`ok` or the propagated exception), the second
the collection state afterwards. -/
def TimeseriesCollection.compute (c : TimeseriesCollection)
    (engine : CorrelQuery → Except PyErr Arr) (start stop skip : Int) :
    Except PyErr Unit × TimeseriesCollection :=
  match engine (TimeseriesCollection.getQuery c start stop skip) with
  | Except.error e => (Except.error e, c)
  | Except.ok buf =>
    ((remapLoop buf 0 c.timeseries).1,
     { c with data := some buf, timeseries := (remapLoop buf 0 c.timeseries).2 })

/-- The key type of `TimeseriesCollection.__getitem__`: an int, a slice
(modelled with optional start and stop and the default step 1), or any other
key. -/
inductive ItemKey where
  | int (i : Int)
  | slice (start stop : Option Int)
  | other
deriving DecidableEq, Repr

/-- The two result forms of `collection[k]`. -/
inductive GetItemResult where
  | one (t : Timeseries)
  | many (l : List Timeseries)
deriving DecidableEq, Repr

/-- Python list indexing `l[i]`: negative indices count from the end, any
remaining out-of-range index raises IndexError. -/
def pyIndex (l : List Timeseries) (i : Int) : Except PyErr Timeseries :=
  let j : Int := if i < 0 then i + l.length else i
  if j < 0 then Except.error PyErr.indexError
  else
    match l[j.toNat]? with
    | some t => Except.ok t
    | none => Except.error PyErr.indexError

/-- Clamp one bound of a Python slice to `[0, len]`, with the given default
for an omitted bound. -/
def sliceClamp (len : Nat) (v : Option Int) (dflt : Nat) : Nat :=
  match v with
  | none => dflt
  | some i =>
    let j : Int := if i < 0 then i + len else i
    if j < 0 then 0 else if j > len then len else j.toNat

/-- Python list slicing `l[start:stop]` with step 1. -/
def pySlice (l : List Timeseries) (start stop : Option Int) : List Timeseries :=
  (l.take (sliceClamp l.length stop l.length)).drop (sliceClamp l.length start 0)

/-- `TimeseriesCollection.__getitem__`: `self.timeseries[item]` when the key
is exactly an int or a slice, IndexError for every other key type. -/
def TimeseriesCollection.getItem (c : TimeseriesCollection) (k : ItemKey) :
    Except PyErr GetItemResult :=
  match k with
  | ItemKey.int i => (pyIndex c.timeseries i).map GetItemResult.one
  | ItemKey.slice st sp => Except.ok (GetItemResult.many (pySlice c.timeseries st sp))
  | ItemKey.other => Except.error PyErr.indexError

/-- `Timeseries.__getitem__` for a row index into a 2-D binding: reading
`self.__data__` raises AttributeError when no binding was ever attached;
otherwise the indexed row of the bound view is returned (IndexError when out
of range). -/
def Timeseries.getItemRow (t : Timeseries) (i : Nat) : Except PyErr (List Rat) :=
  match t.data with
  | none => Except.error PyErr.attributeError
  | some v =>
    match v.data.rows[i]? with
    | some r => Except.ok r
    | none => Except.error PyErr.indexError

/-- The total data size of a request list (the row count of the engine
buffer). -/
def dsizeSum (ts : List Timeseries) : Nat :=
  (ts.map Timeseries.getDataSize).sum

theorem dsizeSum_cons (t : Timeseries) (ts : List Timeseries) :
    dsizeSum (t :: ts) = t.dsize + dsizeSum ts := by
  simp [dsizeSum, Timeseries.getDataSize]

/-- The construction-time invariant every shipped request variant satisfies,
in the form the remap step needs: a nonempty code whose length divides the
data size, the data size being positive whenever a reshape will happen. -/
def goodReq (t : Timeseries) : Prop :=
  0 < t.code.length ∧ t.code.length ∣ t.dsize ∧ (t.code.length = 1 ∨ 0 < t.dsize)

instance (t : Timeseries) : Decidable (goodReq t) := by
  unfold goodReq; infer_instance

/-- The binding claimed for a request whose slice starts at row `off`: the
row slice `[off, off + dsize)` of the buffer, bound unchanged with shape
`(dsize, frameCount)` when the code length is 1, and reshaped to
`(len code, dsize / len code, frameCount)` otherwise. -/
def expectedView (buf : Arr) (off : Nat) (t : Timeseries) : NDView :=
  if t.code.length = 1 then
    { data := sliceArr buf off t.dsize, shape := [t.dsize, buf.width] }
  else
    { data := sliceArr buf off t.dsize
    , shape := [t.code.length, t.dsize / t.code.length, buf.width] }

theorem expectedView_rows (buf : Arr) (off : Nat) (t : Timeseries) :
    (expectedView buf off t).data = sliceArr buf off t.dsize := by
  unfold expectedView; split <;> rfl

/-- The request list with the claimed bindings attached, offsets running from
`st`. -/
def bindSpec (buf : Arr) : Nat → List Timeseries → List Timeseries
  | _, [] => []
  | st, t :: rest =>
    { t with data := some (expectedView buf st t) } :: bindSpec buf (st + t.dsize) rest

theorem strRep_length (s : String) (n : Nat) : (strRep s n).length = n * s.length := by
  induction n with
  | zero => simp [strRep]
  | succ k ih => simp [strRep, ih, Nat.succ_mul]

theorem bindStep_ok (buf : Arr) (st : Nat) (t : Timeseries) (hg : goodReq t)
    (hle : st + t.dsize ≤ buf.rows.length) :
    bindStep buf st t = Except.ok (expectedView buf st t) := by
  obtain ⟨hpos, hdvd, hone⟩ := hg
  have hlen : ((buf.rows.drop st).take t.dsize).length = t.dsize := by
    simp; omega
  by_cases h1 : t.code.length = 1
  · simp [bindStep, expectedView, sliceArr, h1, hlen]
  · have hd : 0 < t.dsize := hone.resolve_left h1
    have hq : t.code.length * (t.dsize / t.code.length) = t.dsize :=
      Nat.mul_div_cancel' hdvd
    have hiv : t.dsize * buf.width / t.dsize = buf.width :=
      Nat.mul_div_cancel_left buf.width hd
    simp [bindStep, expectedView, sliceArr, h1, hlen, hq, hiv, Nat.pos_iff_ne_zero.mp hd,
      dvd_mul_right]

theorem remapLoop_eq_bindSpec (buf : Arr) :
    ∀ (ts : List Timeseries) (st : Nat), (∀ t ∈ ts, goodReq t) →
      st + dsizeSum ts ≤ buf.rows.length →
      remapLoop buf st ts = (Except.ok (), bindSpec buf st ts)
  | [], _, _, _ => rfl
  | t :: rest, st, hg, hle => by
    have hgt : goodReq t := hg t (by simp)
    have hrest : ∀ x ∈ rest, goodReq x := fun x hx => hg x (by simp [hx])
    have hle1 : st + t.dsize ≤ buf.rows.length := by
      rw [dsizeSum_cons] at hle; omega
    have hle2 : (st + t.dsize) + dsizeSum rest ≤ buf.rows.length := by
      rw [dsizeSum_cons] at hle; omega
    have ih := remapLoop_eq_bindSpec buf rest (st + t.dsize) hrest hle2
    simp [remapLoop, bindSpec, bindStep_ok buf st t hgt hle1, ih]

theorem bindSpec_get (buf : Arr) :
    ∀ (ts : List Timeseries) (st i : Nat),
      (bindSpec buf st ts)[i]? =
        (ts[i]?).map
          (fun t => { t with data := some (expectedView buf (st + dsizeSum (ts.take i)) t) })
  | [], st, i => by simp [bindSpec]
  | t :: rest, st, 0 => by simp [bindSpec, dsizeSum]
  | t :: rest, st, i + 1 => by
    have ih := bindSpec_get buf rest (st + t.dsize) i
    simp only [bindSpec, List.getElem?_cons_succ, List.take_succ_cons, dsizeSum_cons,
      Nat.add_assoc] at ih ⊢
    exact ih

example : Bond.make (AtomsArg.list [⟨1, 0⟩, ⟨2, 0⟩]) =
    Except.ok ⟨TsKind.bond, "r", [⟨1, 0⟩, ⟨2, 0⟩], 2, 1, none⟩ := rfl
example : Atom.make "v" (AtomsArg.list [⟨1, 0⟩, ⟨2, 0⟩]) =
    Except.ok ⟨TsKind.atom, "vv", [⟨1, 0⟩, ⟨2, 0⟩], 2, 6, none⟩ := by decide
example : Bond.make (AtomsArg.otherSized 3) = Except.error PyErr.arityMismatch := rfl
example : Bond.make AtomsArg.otherNoLen = Except.error PyErr.typeError := rfl

theorem getDataSize_eq_dsizeSum (c : TimeseriesCollection) :
    TimeseriesCollection.getDataSize c = dsizeSum c.timeseries := rfl

/-- C1: for every collection of registered requests and an engine buffer with
one row per declared data unit, compute succeeds and binds to the i-th
request (in registration order) the row slice
`[offset_i, offset_i + dataSize_i)`, where `offset_i` is the sum of the data
sizes of the requests registered earlier; a request with code length 1 is
bound unchanged with shape `(dataSize, frameCount)`, and a request with code
length u > 1 is bound reshaped to `(u, dataSize / u, frameCount)`. -/
theorem compute_binds_offset_slices (c : TimeseriesCollection) (buf : Arr) (s p k : Int)
    (hgood : ∀ t ∈ c.timeseries, goodReq t)
    (hrows : buf.rows.length = TimeseriesCollection.getDataSize c) :
    (TimeseriesCollection.compute c (fun _ => Except.ok buf) s p k).1 = Except.ok () ∧
    ∀ i : Nat,
      ((TimeseriesCollection.compute c (fun _ => Except.ok buf) s p k).2.timeseries)[i]? =
        (c.timeseries[i]?).map
          (fun t => { t with data := some (expectedView buf (dsizeSum (c.timeseries.take i)) t) }) := by
  have hle : 0 + dsizeSum c.timeseries ≤ buf.rows.length := by
    rw [hrows, getDataSize_eq_dsizeSum]; omega
  have hmain := remapLoop_eq_bindSpec buf c.timeseries 0 hgood hle
  constructor
  · simp [TimeseriesCollection.compute, hmain]
  · intro i
    simp only [TimeseriesCollection.compute, hmain]
    have hget := bindSpec_get buf c.timeseries 0 i
    simpa using hget

/-- The row list underlying the view bound to a request (empty when no
binding is attached): flattening any reshape back to buffer rows. -/
def boundRows (t : Timeseries) : List (List Rat) :=
  ((t.data).map (fun v => v.data.rows)).getD []

theorem slices3_append {α : Type} (l : List α) (a b c : Nat) (h : a + b + c = l.length) :
    l.take a ++ ((l.drop a).take b ++ (l.drop (a + b)).take c) = l := by
  have h3 : (l.drop (a + b)).take c = l.drop (a + b) := by
    apply List.take_of_length_le
    simp
    omega
  have hdd : (l.drop a).drop b = l.drop (a + b) := by
    rw [List.drop_drop, Nat.add_comm]
  rw [h3, ← hdd, List.take_append_drop, List.take_append_drop]

/-- C2: registering requests A, B, C in that order and computing against a
buffer with one row per declared data unit yields bound views whose row
counts are the three data sizes, and whose rows, concatenated in
registration order (reshapes flattened back to rows), reproduce the engine
buffer exactly. -/
theorem compute_roundtrip (A B C : Timeseries) (buf : Arr) (s p k : Int)
    (hA : goodReq A) (hB : goodReq B) (hC : goodReq C)
    (hrows : buf.rows.length = A.dsize + B.dsize + C.dsize) :
    (TimeseriesCollection.compute ⟨[A, B, C], none, none⟩ (fun _ => Except.ok buf) s p k).1 =
      Except.ok () ∧
    ((TimeseriesCollection.compute ⟨[A, B, C], none, none⟩ (fun _ => Except.ok buf) s p k).2.timeseries.map
        (fun t => (boundRows t).length)) = [A.dsize, B.dsize, C.dsize] ∧
    (((TimeseriesCollection.compute ⟨[A, B, C], none, none⟩ (fun _ => Except.ok buf) s p k).2.timeseries.map
        boundRows).flatten) = buf.rows := by
  have hgood : ∀ t ∈ ([A, B, C] : List Timeseries), goodReq t := by
    intro t ht
    simp at ht
    rcases ht with h | h | h <;> subst h <;> assumption
  have hle : 0 + dsizeSum ([A, B, C] : List Timeseries) ≤ buf.rows.length := by
    simp [dsizeSum, Timeseries.getDataSize]
    omega
  have hmain := remapLoop_eq_bindSpec buf [A, B, C] 0 hgood hle
  refine ⟨?_, ?_, ?_⟩
  · simp [TimeseriesCollection.compute, hmain]
  · simp [TimeseriesCollection.compute, hmain, bindSpec, boundRows, expectedView_rows,
      sliceArr]
    omega
  · simp [TimeseriesCollection.compute, hmain, bindSpec, boundRows, expectedView_rows,
      sliceArr]
    exact slices3_append buf.rows A.dsize B.dsize C.dsize hrows.symm

/-- C4: a failure raised by the engine call inside compute propagates out
unchanged, and the collection — in particular every request binding — is left
exactly as it was before the call: there is no partially updated state. -/
theorem compute_engine_failure_atomic (c : TimeseriesCollection) (e : PyErr)
    (engine : CorrelQuery → Except PyErr Arr) (s p k : Int)
    (h : engine (TimeseriesCollection.getQuery c s p k) = Except.error e) :
    TimeseriesCollection.compute c engine s p k = (Except.error e, c) := by
  unfold TimeseriesCollection.compute
  rw [h]

def atomA : AtomData := ⟨1, 12⟩

def atomB : AtomData := ⟨2, 1⟩

/-- A concrete Bond request over atomA and atomB (code r, dsize 1). -/
def bondReq : Timeseries := ⟨TsKind.bond, "r", [atomA, atomB], 2, 1, none⟩

/-- A concrete Atom(v, [atomA, atomB]) request (code vv, dsize 6). -/
def atomVReq : Timeseries := ⟨TsKind.atom, "vv", [atomA, atomB], 2, 6, none⟩

/-- A concrete engine buffer with 7 rows and 1 frame. -/
def bufC1 : Arr := ⟨1, [[0], [1], [2], [3], [4], [5], [6]]⟩

theorem compute_binds_offset_slices_witness :
    (TimeseriesCollection.compute ⟨[bondReq, atomVReq], none, none⟩
        (fun _ => Except.ok bufC1) 0 (-1) 1).1 = Except.ok () ∧
    ((TimeseriesCollection.compute ⟨[bondReq, atomVReq], none, none⟩
        (fun _ => Except.ok bufC1) 0 (-1) 1).2.timeseries)[1]? =
      ((([bondReq, atomVReq] : List Timeseries))[1]?).map
        (fun t => { t with data := some (expectedView bufC1
            (dsizeSum (([bondReq, atomVReq] : List Timeseries).take 1)) t) }) :=
  ⟨(compute_binds_offset_slices ⟨[bondReq, atomVReq], none, none⟩ bufC1 0 (-1) 1
      (by decide) (by decide)).1,
   (compute_binds_offset_slices ⟨[bondReq, atomVReq], none, none⟩ bufC1 0 (-1) 1
      (by decide) (by decide)).2 1⟩

/-- A concrete engine buffer with 3 rows and 2 frames. -/
def bufC2 : Arr := ⟨2, [[10, 11], [20, 21], [30, 31]]⟩

/-- A concrete CenterOfMass request over atomA and atomB (code m, dsize 3). -/
def comReq : Timeseries := ⟨TsKind.com, "m", [atomA, atomB], 2, 3, none⟩

/-- A concrete Angle request (code a, dsize 1). -/
def angleReq : Timeseries := ⟨TsKind.angle, "a", [atomA, atomB, ⟨3, 1⟩], 3, 1, none⟩

theorem compute_roundtrip_witness :
    (TimeseriesCollection.compute ⟨[bondReq, angleReq, bondReq], none, none⟩
        (fun _ => Except.ok bufC2) 0 (-1) 1).1 = Except.ok () ∧
    ((TimeseriesCollection.compute ⟨[bondReq, angleReq, bondReq], none, none⟩
        (fun _ => Except.ok bufC2) 0 (-1) 1).2.timeseries.map
        (fun t => (boundRows t).length)) = [bondReq.dsize, angleReq.dsize, bondReq.dsize] ∧
    (((TimeseriesCollection.compute ⟨[bondReq, angleReq, bondReq], none, none⟩
        (fun _ => Except.ok bufC2) 0 (-1) 1).2.timeseries.map boundRows).flatten) = bufC2.rows :=
  compute_roundtrip bondReq angleReq bondReq bufC2 0 (-1) 1
    (by decide) (by decide) (by decide) (by decide)

def engFail : CorrelQuery → Except PyErr Arr := fun _ => Except.error PyErr.engineError

theorem compute_engine_failure_atomic_witness :
    TimeseriesCollection.compute ⟨[bondReq], none, none⟩ engFail 0 (-1) 1 =
      (Except.error PyErr.engineError, (⟨[bondReq], none, none⟩ : TimeseriesCollection)) :=
  compute_engine_failure_atomic ⟨[bondReq], none, none⟩ PyErr.engineError engFail 0 (-1) 1 rfl


/-- C3: evaluation at the failing input of the code bug.  On a fresh empty
collection the source `_getBounds` raises AttributeError, because its lazy
population branch calls `self.getAtomList()` while the class defines only
`_getAtomList`; the bounds computation the specification describes (the same
code with the call spelled as intended) returns `(0, 0)` there. -/
theorem getBounds_empty_collection_raises :
    TimeseriesCollection.getBounds ⟨[], none, none⟩ = Except.error PyErr.attributeError ∧
    TimeseriesCollection.getBoundsSpec ⟨[], none, none⟩ = Except.ok (0, 0) :=
  ⟨rfl, rfl⟩

theorem init_fields (k : TsKind) (code : String) (a : AtomsArg) (d : Nat) (t : Timeseries)
    (h : Timeseries.init k code a d = Except.ok t) :
    t.code = code ∧ t.dsize = d := by
  rcases a with l | l | a1 | n | _ <;> simp only [Timeseries.init] at h <;> cases h <;>
    exact ⟨rfl, rfl⟩

/-- C5: every request successfully constructed by a shipped variant (Atom,
Bond, Angle, Dihedral, Distance, CenterOfGeometry, CenterOfMass) satisfies
`dataSize() % len(code()) == 0` at construction time.  (The statement uses
the Nat convention `0 % 0 = 0`, which covers the degenerate Atom request over
an empty selection, whose code is the empty string.) -/
theorem shipped_dataSize_mod_code (cd : String) (a : AtomsArg) (t : Timeseries)
    (h : Atom.make cd a = Except.ok t ∨ Bond.make a = Except.ok t ∨
      Angle.make a = Except.ok t ∨ Dihedral.make a = Except.ok t ∨
      Distance.make cd a = Except.ok t ∨ CenterOfGeometry.make a = Except.ok t ∨
      CenterOfMass.make a = Except.ok t) :
    t.dsize % t.code.length = 0 := by
  rcases h with h | h | h | h | h | h | h
  · by_cases hc : cd = "x" ∨ cd = "y" ∨ cd = "z" ∨ cd = "v"
    · have hc1 : cd.length = 1 := by
        rcases hc with h' | h' | h' | h' <;> subst h' <;> decide
      rcases a with l | l | a1 | n | _
      · simp only [Atom.make, hc, if_true] at h
        obtain ⟨hcode, hds⟩ := init_fields _ _ _ _ _ h
        rw [hds, hcode, strRep_length, hc1]
        simp only [Nat.mul_one]
        split <;> simp [Nat.mul_mod_left, Nat.mod_self]
      · simp only [Atom.make, hc, if_true] at h
        obtain ⟨hcode, hds⟩ := init_fields _ _ _ _ _ h
        rw [hds, hcode, strRep_length, hc1]
        simp only [Nat.mul_one]
        split <;> simp [Nat.mul_mod_left, Nat.mod_self]
      · simp only [Atom.make, hc, if_true] at h
        obtain ⟨hcode, hds⟩ := init_fields _ _ _ _ _ h
        rw [hds, hcode, strRep_length, hc1]
        simp only [Nat.mul_one]
        split <;> decide
      · simp only [Atom.make, hc, if_true] at h
        cases h
      · simp only [Atom.make, hc, if_true] at h
        cases h
    · simp [Atom.make, hc] at h
  · unfold Bond.make at h
    rcases a with l | l | a1 | n | _ <;> simp only [AtomsArg.pyLen] at h <;>
      first
        | (split at h <;>
            first
              | (obtain ⟨hcode, hds⟩ := init_fields _ _ _ _ _ h
                 rw [hds, hcode]
                 decide)
              | simp at h)
        | simp at h
  · unfold Angle.make at h
    rcases a with l | l | a1 | n | _ <;> simp only [AtomsArg.pyLen] at h <;>
      first
        | (split at h <;>
            first
              | (obtain ⟨hcode, hds⟩ := init_fields _ _ _ _ _ h
                 rw [hds, hcode]
                 decide)
              | simp at h)
        | simp at h
  · unfold Dihedral.make at h
    rcases a with l | l | a1 | n | _ <;> simp only [AtomsArg.pyLen] at h <;>
      first
        | (split at h <;>
            first
              | (obtain ⟨hcode, hds⟩ := init_fields _ _ _ _ _ h
                 rw [hds, hcode]
                 decide)
              | simp at h)
        | simp at h
  · by_cases hc : cd = "d" ∨ cd = "r"
    · have hc1 : cd.length = 1 := by
        rcases hc with h' | h' <;> subst h' <;> decide
      rcases a with l | l | a1 | n | _
      · simp only [Distance.make, hc, if_true, AtomsArg.pyLen] at h
        by_cases hn : l.length = 2
        · rw [if_pos hn] at h
          obtain ⟨hcode, hds⟩ := init_fields _ _ _ _ _ h
          rw [hds, hcode, hc1]
          split <;> decide
        · rw [if_neg hn] at h
          cases h
      · simp only [Distance.make, hc, if_true, AtomsArg.pyLen] at h
        by_cases hn : l.length = 2
        · rw [if_pos hn] at h
          obtain ⟨hcode, hds⟩ := init_fields _ _ _ _ _ h
          rw [hds, hcode, hc1]
          split <;> decide
        · rw [if_neg hn] at h
          cases h
      · simp only [Distance.make, hc, if_true, AtomsArg.pyLen] at h
        cases h
      · simp only [Distance.make, hc, if_true, AtomsArg.pyLen] at h
        by_cases hn : n = 2
        · rw [if_pos hn] at h
          simp only [Timeseries.init] at h
          cases h
        · rw [if_neg hn] at h
          cases h
      · simp only [Distance.make, hc, if_true, AtomsArg.pyLen] at h
        cases h
    · simp [Distance.make, hc] at h
  · obtain ⟨hcode, hds⟩ := init_fields _ _ _ _ _ h
    rw [hds, hcode]
    decide
  · obtain ⟨hcode, hds⟩ := init_fields _ _ _ _ _ h
    rw [hds, hcode]
    decide

theorem shipped_dataSize_mod_code_witness :
    bondReq.dsize % bondReq.code.length = 0 :=
  shipped_dataSize_mod_code "r" (AtomsArg.list [atomA, atomB]) bondReq
    (Or.inr (Or.inl (by decide)))

/-- A deterministic engine returning a one-row, two-frame buffer. -/
def engC6 : CorrelQuery → Except PyErr Arr := fun _ => Except.ok ⟨2, [[5, 7]]⟩

/-- The collection state after computing a one-Bond collection against
engC6. -/
def compC6 : TimeseriesCollection :=
  (TimeseriesCollection.compute ⟨[bondReq], none, none⟩ engC6 0 (-1) 1).2

/-- C6 counterexample: after a successful compute followed by clear, the
collection size is 0, but the binding of the previously registered request —
the request object the caller still holds, which clear never touches — is
not invalidated: indexing it still succeeds with the bound row, rather than
failing. -/
theorem clear_keeps_binding_cex :
    TimeseriesCollection.size (TimeseriesCollection.clear compC6) = 0 ∧
    Timeseries.getItemRow (compC6.timeseries.headD bondReq) 0 = Except.ok [5, 7] ∧
    Timeseries.getItemRow (compC6.timeseries.headD bondReq) 0 ≠
      Except.error PyErr.attributeError := by
  refine ⟨rfl, by decide, by decide⟩

/-- C6 amended: clear always yields size 0 and empties the request list, but
it resets nothing else: the stored buffer and the atom-list cache survive,
and request objects (with their result bindings) are never modified, so
access to a previously bound view still succeeds. -/
theorem clear_resets_only_list (c : TimeseriesCollection) :
    TimeseriesCollection.size (TimeseriesCollection.clear c) = 0 ∧
    (TimeseriesCollection.clear c).timeseries = [] ∧
    (TimeseriesCollection.clear c).data = c.data ∧
    (TimeseriesCollection.clear c).atomlistCache = c.atomlistCache :=
  ⟨rfl, rfl, rfl, rfl⟩

/-- C7: over list or atom-group selections, Bond, Angle, Dihedral and
Distance (the latter with a valid component code) raise the arity error
exactly when the selection size differs from 2, 3, 4 and 2 respectively, and
construct successfully exactly when it matches. -/
theorem fixed_arity_checks (l : List AtomData) (sel : AtomsArg) (cd : String)
    (hsel : sel = AtomsArg.list l ∨ sel = AtomsArg.group l)
    (hcd : cd = "d" ∨ cd = "r") :
    ((Bond.make sel = Except.error PyErr.arityMismatch) ↔ l.length ≠ 2) ∧
    ((∃ t, Bond.make sel = Except.ok t) ↔ l.length = 2) ∧
    ((Angle.make sel = Except.error PyErr.arityMismatch) ↔ l.length ≠ 3) ∧
    ((∃ t, Angle.make sel = Except.ok t) ↔ l.length = 3) ∧
    ((Dihedral.make sel = Except.error PyErr.arityMismatch) ↔ l.length ≠ 4) ∧
    ((∃ t, Dihedral.make sel = Except.ok t) ↔ l.length = 4) ∧
    ((Distance.make cd sel = Except.error PyErr.arityMismatch) ↔ l.length ≠ 2) ∧
    ((∃ t, Distance.make cd sel = Except.ok t) ↔ l.length = 2) := by
  rcases hsel with hs | hs <;> subst hs <;> rcases hcd with hc | hc <;> subst hc <;>
    by_cases h2 : l.length = 2 <;> by_cases h3 : l.length = 3 <;>
    by_cases h4 : l.length = 4 <;>
    first
      | omega
      | simp [Bond.make, Angle.make, Dihedral.make, Distance.make, AtomsArg.pyLen,
          Timeseries.init, h2, h3, h4]

theorem fixed_arity_checks_witness :
    Bond.make (AtomsArg.list [atomA]) = Except.error PyErr.arityMismatch :=
  ((fixed_arity_checks [atomA] (AtomsArg.list [atomA]) "r" (Or.inl rfl)
    (Or.inr rfl)).1).mpr (by decide)

/-- C8 counterexample: Bond applied to an invalid atoms argument — neither a
single atom, nor a list of atoms, nor an atom-group, e.g. a string — of
length 3 fails with the arity error, not with the invalid-selection error,
because the length check runs before the selection-shape check. -/
theorem bond_invalid_selection_cex :
    Bond.make (AtomsArg.otherSized 3) = Except.error PyErr.arityMismatch ∧
    Bond.make (AtomsArg.otherSized 3) ≠ Except.error PyErr.invalidAtomSelection := by
  refine ⟨rfl, by decide⟩

/-- C8 amended: with an invalid atoms argument the base constructor, and the
variants whose only earlier check is on the component code (Atom,
CenterOfGeometry, CenterOfMass), raise the invalid-selection error; the
fixed-arity variants check the selection length first, so on such an
argument they raise the invalid-selection error exactly when its length
equals the required arity — otherwise they raise the arity error, or a
TypeError when the argument has no length. -/
theorem invalid_selection_error_paths (a : AtomsArg) (k : TsKind) (cd : String) (d : Nat)
    (ha : (∃ n, a = AtomsArg.otherSized n) ∨ a = AtomsArg.otherNoLen) :
    Timeseries.init k cd a d = Except.error PyErr.invalidAtomSelection ∧
    Atom.make "x" a = Except.error PyErr.invalidAtomSelection ∧
    CenterOfGeometry.make a = Except.error PyErr.invalidAtomSelection ∧
    CenterOfMass.make a = Except.error PyErr.invalidAtomSelection ∧
    (Bond.make a = Except.error PyErr.invalidAtomSelection ↔ a = AtomsArg.otherSized 2) ∧
    (Angle.make a = Except.error PyErr.invalidAtomSelection ↔ a = AtomsArg.otherSized 3) ∧
    (Dihedral.make a = Except.error PyErr.invalidAtomSelection ↔ a = AtomsArg.otherSized 4) ∧
    (Distance.make "r" a = Except.error PyErr.invalidAtomSelection ↔
      a = AtomsArg.otherSized 2) := by
  rcases ha with ⟨n, rfl⟩ | rfl
  · by_cases h2 : n = 2 <;> by_cases h3 : n = 3 <;> by_cases h4 : n = 4 <;>
      first
        | omega
        | simp [Timeseries.init, Atom.make, CenterOfGeometry.make, CenterOfMass.make,
            Bond.make, Angle.make, Dihedral.make, Distance.make, AtomsArg.pyLen,
            h2, h3, h4]
  · simp [Timeseries.init, Atom.make, CenterOfGeometry.make, CenterOfMass.make,
      Bond.make, Angle.make, Dihedral.make, Distance.make, AtomsArg.pyLen]

theorem invalid_selection_error_paths_witness :
    Timeseries.init TsKind.base "r" (AtomsArg.otherSized 2) 1 =
      Except.error PyErr.invalidAtomSelection ∧
    Bond.make (AtomsArg.otherSized 2) = Except.error PyErr.invalidAtomSelection :=
  ⟨(invalid_selection_error_paths (AtomsArg.otherSized 2) TsKind.base "r" 1
      (Or.inl ⟨2, rfl⟩)).1,
   ((invalid_selection_error_paths (AtomsArg.otherSized 2) TsKind.base "r" 1
      (Or.inl ⟨2, rfl⟩)).2.2.2.2.1).mpr rfl⟩

/-- The construction-time fields of a request — everything except the result
binding, which is the only field the remap loop rewrites. -/
structure TsStatic where
  kind : TsKind
  code : String
  atoms : List AtomData
  numatoms : Nat
  dsize : Nat
deriving DecidableEq, Repr

def Timeseries.statics (t : Timeseries) : TsStatic :=
  ⟨t.kind, t.code, t.atoms, t.numatoms, t.dsize⟩

theorem bindStep_congr_statics (buf : Arr) (st : Nat) (t₁ t₂ : Timeseries)
    (h : Timeseries.statics t₁ = Timeseries.statics t₂) :
    bindStep buf st t₁ = bindStep buf st t₂ := by
  have hd : t₁.dsize = t₂.dsize := congrArg TsStatic.dsize h
  have hcode : t₁.code = t₂.code := congrArg TsStatic.code h
  unfold bindStep
  rw [hd, hcode]

theorem remapLoop_statics (buf : Arr) :
    ∀ (ts : List Timeseries) (st : Nat),
      ((remapLoop buf st ts).2).map Timeseries.statics = ts.map Timeseries.statics
  | [], _ => rfl
  | t :: rest, st => by
    cases hstep : bindStep buf st t with
    | error e => simp [remapLoop, hstep]
    | ok v =>
      have ih := remapLoop_statics buf rest (st + t.dsize)
      simp [remapLoop, hstep, ih, Timeseries.statics]

theorem remapLoop_fixpoint (buf : Arr) :
    ∀ (ts ts' : List Timeseries) (st : Nat),
      remapLoop buf st ts = (Except.ok (), ts') →
      remapLoop buf st ts' = (Except.ok (), ts')
  | [], ts', st, h => by
    simp only [remapLoop] at h
    rw [Prod.mk.injEq] at h
    rw [← h.2]
    rfl
  | t :: rest, ts', st, h => by
    cases hstep : bindStep buf st t with
    | error e =>
      simp only [remapLoop, hstep] at h
      simp at h
    | ok v =>
      simp only [remapLoop, hstep] at h
      rw [Prod.mk.injEq] at h
      obtain ⟨h1, h2⟩ := h
      subst h2
      have hstep2 : bindStep buf st { t with data := some v } = Except.ok v := by
        rw [bindStep_congr_statics buf st { t with data := some v } t rfl, hstep]
      have hr : remapLoop buf (st + t.dsize) rest =
          (Except.ok (), (remapLoop buf (st + t.dsize) rest).2) := by
        rw [← h1]
      have ih := remapLoop_fixpoint buf rest ((remapLoop buf (st + t.dsize) rest).2)
        (st + t.dsize) hr
      simp [remapLoop, hstep2, ih]

theorem map_getter_congr {β : Type} (f : Timeseries → β) (g : TsStatic → β)
    (hf : ∀ t, f t = g (Timeseries.statics t))
    {ts₁ ts₂ : List Timeseries}
    (h : ts₁.map Timeseries.statics = ts₂.map Timeseries.statics) :
    ts₁.map f = ts₂.map f := by
  have hfe : f = g ∘ Timeseries.statics := funext hf
  simp only [hfe, ← List.map_map, h]

theorem getQuery_of_statics (c₁ c₂ : TimeseriesCollection) (s p k : Int)
    (h : c₁.timeseries.map Timeseries.statics = c₂.timeseries.map Timeseries.statics) :
    TimeseriesCollection.getQuery c₁ s p k = TimeseriesCollection.getQuery c₂ s p k := by
  have h1 : c₁.timeseries.map Timeseries.getAtomList =
      c₂.timeseries.map Timeseries.getAtomList :=
    map_getter_congr Timeseries.getAtomList (fun st => st.atoms.map AtomData.number)
      (fun t => rfl) h
  have h2 : c₁.timeseries.map Timeseries.getFormatCode =
      c₂.timeseries.map Timeseries.getFormatCode :=
    map_getter_congr Timeseries.getFormatCode (fun st => st.code) (fun t => rfl) h
  have h3 : c₁.timeseries.map Timeseries.getDataSize =
      c₂.timeseries.map Timeseries.getDataSize :=
    map_getter_congr Timeseries.getDataSize (fun st => st.dsize) (fun t => rfl) h
  have h4 : c₁.timeseries.map Timeseries.getAtomCounts =
      c₂.timeseries.map Timeseries.getAtomCounts :=
    map_getter_congr Timeseries.getAtomCounts (fun st =>
      match st.kind with
      | TsKind.atom => List.replicate st.numatoms 1
      | _ => [st.numatoms]) (fun t => rfl) h
  have h5 : c₁.timeseries.map Timeseries.getAuxData =
      c₂.timeseries.map Timeseries.getAuxData :=
    map_getter_congr Timeseries.getAuxData (fun st =>
      match st.kind with
      | TsKind.cog => List.replicate st.numatoms 1
      | TsKind.com => st.atoms.map AtomData.mass
      | _ => List.replicate st.numatoms 0) (fun t => rfl) h
  simp [TimeseriesCollection.getQuery, TimeseriesCollection.getAtomList,
    TimeseriesCollection.getFormat, TimeseriesCollection.getDataSize,
    TimeseriesCollection.getAtomCounts, TimeseriesCollection.getAuxData,
    h1, h2, h3, h4, h5]

/-- C9: with an engine that is a deterministic function of the combined
query, calling compute a second time with identical arguments on the
otherwise unchanged result collection returns the identical outcome and the
identical state — in particular bit-identical bound views for every
registered request both times. -/
theorem compute_idempotent (c : TimeseriesCollection)
    (engine : CorrelQuery → Except PyErr Arr) (s p k : Int)
    (h : (TimeseriesCollection.compute c engine s p k).1 = Except.ok ()) :
    TimeseriesCollection.compute (TimeseriesCollection.compute c engine s p k).2 engine s p k =
      TimeseriesCollection.compute c engine s p k := by
  cases heng : engine (TimeseriesCollection.getQuery c s p k) with
  | error e =>
    exfalso
    unfold TimeseriesCollection.compute at h
    rw [heng] at h
    simp at h
  | ok buf =>
    have h1 : (remapLoop buf 0 c.timeseries).1 = Except.ok () := by
      unfold TimeseriesCollection.compute at h
      rw [heng] at h
      simpa using h
    have hcomp : TimeseriesCollection.compute c engine s p k =
        (Except.ok (),
         { c with data := some buf, timeseries := (remapLoop buf 0 c.timeseries).2 }) := by
      unfold TimeseriesCollection.compute
      rw [heng]
      simp [h1]
    have hstat : ((remapLoop buf 0 c.timeseries).2).map Timeseries.statics =
        c.timeseries.map Timeseries.statics := remapLoop_statics buf c.timeseries 0
    have hq : TimeseriesCollection.getQuery
        { c with data := some buf, timeseries := (remapLoop buf 0 c.timeseries).2 } s p k =
        TimeseriesCollection.getQuery c s p k :=
      getQuery_of_statics _ c s p k hstat
    have hr : remapLoop buf 0 c.timeseries =
        (Except.ok (), (remapLoop buf 0 c.timeseries).2) := by
      rw [← h1]
    have hfix := remapLoop_fixpoint buf c.timeseries ((remapLoop buf 0 c.timeseries).2) 0 hr
    rw [hcomp]
    unfold TimeseriesCollection.compute
    rw [hq, heng]
    simp [hfix]

/-- A deterministic engine returning a one-row, one-frame buffer. -/
def engC9 : CorrelQuery → Except PyErr Arr := fun _ => Except.ok ⟨1, [[9]]⟩

theorem compute_idempotent_witness :
    TimeseriesCollection.compute
        (TimeseriesCollection.compute ⟨[bondReq], none, none⟩ engC9 0 (-1) 1).2
        engC9 0 (-1) 1 =
      TimeseriesCollection.compute ⟨[bondReq], none, none⟩ engC9 0 (-1) 1 :=
  compute_idempotent ⟨[bondReq], none, none⟩ engC9 0 (-1) 1 (by decide)

/-- C10: collection indexing dispatches on the key type: an in-range integer
key yields the k-th registered request, a slice key yields the corresponding
sublist of registered requests, and any key that is neither an int nor a
slice raises IndexError. -/
theorem getItem_dispatch (c : TimeseriesCollection) :
    (∀ (n : Nat) (t : Timeseries), c.timeseries[n]? = some t →
      TimeseriesCollection.getItem c (ItemKey.int n) = Except.ok (GetItemResult.one t)) ∧
    (∀ st sp : Option Int,
      TimeseriesCollection.getItem c (ItemKey.slice st sp) =
        Except.ok (GetItemResult.many (pySlice c.timeseries st sp))) ∧
    TimeseriesCollection.getItem c ItemKey.other = Except.error PyErr.indexError := by
  refine ⟨?_, fun st sp => rfl, rfl⟩
  intro n t ht
  unfold TimeseriesCollection.getItem pyIndex
  have h0 : ¬ ((n : Int) < 0) := by omega
  simp [h0, ht, Except.map]

theorem getItem_dispatch_witness :
    TimeseriesCollection.getItem ⟨[bondReq, atomVReq], none, none⟩
        (ItemKey.int ((0 : Nat) : Int)) = Except.ok (GetItemResult.one bondReq) ∧
    TimeseriesCollection.getItem ⟨[bondReq, atomVReq], none, none⟩ ItemKey.other =
      Except.error PyErr.indexError :=
  ⟨(getItem_dispatch ⟨[bondReq, atomVReq], none, none⟩).1 0 bondReq rfl,
   (getItem_dispatch ⟨[bondReq, atomVReq], none, none⟩).2.2⟩
